import Mathlib

/-!
Verification of the Sensus API core (src/main.py) against its specification.

The Python source is shallowly embedded: each handler becomes a pure Lean
function over an explicit `User` record; raising `HTTPException` becomes
`Except.error`; APNs delivery becomes an injected `transport` capability.
Timestamp columns (`*_updated_at`, `created_at`, `updated_at`) are omitted:
no claim concerns them and they carry wall-clock time only.
-/

namespace Sensus

/-- Embedding of Python `str.split("-")` at the character-list level:
split on every occurrence of the separator, keeping empty pieces, so that
`"".split("-") == [""]` and `"-".split("-") == ["", ""]`. -/
def splitDash : List Char → List (List Char)
  | [] => [[]]
  | c :: cs =>
    if c = '-' then [] :: splitDash cs
    else
      match splitDash cs with
      | [] => [[c]]
      | h :: t => (c :: h) :: t

/-- Embedding of Python `raw.split("-")` on strings. -/
def pySplitDash (s : String) : List String :=
  (splitDash s.data).map List.asString

/-- Whitespace characters removed by Python `str.strip()` (ASCII subset:
space, tab, newline, carriage return, vertical tab, form feed). -/
def isPySpace (c : Char) : Bool :=
  c = ' ' || c = '\t' || c = '\n' || c = '\r' || c = Char.ofNat 11 || c = Char.ofNat 12

/-- Embedding of Python `str.strip()`. -/
def pyStrip (s : String) : String :=
  (((s.data.dropWhile isPySpace).reverse.dropWhile isPySpace).reverse).asString

/-- Numeric value of a decimal digit character. -/
def digitVal (c : Char) : Nat :=
  c.toNat - 48

/-- Value of a non-empty all-digit character list, `none` otherwise. -/
def decDigits? (cs : List Char) : Option Nat :=
  if cs.isEmpty then none
  else if cs.all Char.isDigit then
    some (cs.foldl (fun a c => 10 * a + digitVal c) 0)
  else none

/-- Embedding of Python `int(s)` on strings: strip surrounding whitespace,
allow one leading sign, then a non-empty run of decimal digits; anything
else raises `ValueError`, i.e. `none` (digit-group underscores and
non-ASCII digits, which Python also accepts, are not modelled; no claim
uses them). -/
def pyInt (s : String) : Option Int :=
  match (pyStrip s).data with
  | '+' :: cs => (decDigits? cs).map Int.ofNat
  | '-' :: cs => (decDigits? cs).map (fun n => -(n : Int))
  | cs => (decDigits? cs).map Int.ofNat

/-- Embedding of `parse_birthday` (src/main.py lines 276-296): split on
`"-"`; three parts parse as `(year, month, day)`, two parts as
`(None, month, day)`; any other shape, or any part that `int()` rejects,
raises HTTP 400 "Invalid birthday format". The function performs no range
checks on the parsed numbers. -/
def parse_birthday (raw : String) : Except String (Option Int × Int × Int) :=
  match pySplitDash raw with
  | [a, b, c] =>
    match pyInt a, pyInt b, pyInt c with
    | some y, some m, some d => .ok (some y, m, d)
    | _, _, _ => .error "Invalid birthday format"
  | [a, b] =>
    match pyInt a, pyInt b with
    | some m, some d => .ok (none, m, d)
    | _, _ => .error "Invalid birthday format"
  | _ => .error "Invalid birthday format"

example : parse_birthday "2024-03-15" = .ok (some 2024, 3, 15) := rfl
example : parse_birthday "13-40" = .ok (none, 13, 40) := rfl
example : parse_birthday "" = .error "Invalid birthday format" := rfl
example : parse_birthday "null" = .error "Invalid birthday format" := rfl

/-- Python truthiness of an optional integer column (`None` and `0` are
falsy). -/
def truthyOptInt : Option Int → Bool
  | none => false
  | some n => n != 0

/-- Python truthiness of an optional string column (`None` and `""` are
falsy). -/
def truthyOptStr : Option String → Bool
  | none => false
  | some s => s != ""

/-- The table `calendar.month_abbr`: index 0 is the empty string, indices
1-12 are the three-letter English month abbreviations. -/
def month_abbr : List String :=
  ["", "Jan", "Feb", "Mar", "Apr", "May", "Jun",
   "Jul", "Aug", "Sep", "Oct", "Nov", "Dec"]

/-- Embedding of Python list indexing `l[i]`: negative indices count from
the end; an index out of range raises `IndexError`. -/
def pyListGet (l : List String) (i : Int) : Except String String :=
  let j : Int := if i < 0 then i + l.length else i
  if h : 0 ≤ j ∧ j.toNat < l.length then .ok (l.get ⟨j.toNat, h.2⟩)
  else .error "IndexError"

/-- The `users` table row (src/main.py lines 143-183), restricted to the
columns the claims touch; `*_updated_at` timestamp columns are omitted. -/
structure User where
  first_name : Option String := none
  last_name : Option String := none
  phone_number : Option String := none
  birthday : Option String := none
  birthday_year : Option Int := none
  birthday_month : Option Int := none
  birthday_day : Option Int := none
  address : Option String := none
  note_name : Option String := none
  note_body : Option String := none
  command : Option String := none
  apns_device_token : Option String := none
  push_note_name_enabled : Bool := true
  push_note_body_enabled : Bool := true
  push_screenshot_enabled : Bool := true
deriving DecidableEq, Repr

/-- A user record with every nullable column `NULL` and the per-channel
push flags at their column defaults (`true`). -/
def blankUser : User := {}

/-- Embedding of `format_birthday` (src/main.py lines 299-311): when both
`birthday_month` and `birthday_day` are truthy, render
`"{month_abbr[month]} {day} {year}"` (year omitted when falsy); otherwise
return the raw `user.birthday` column. Indexing `calendar.month_abbr` out
of range raises `IndexError`, which this embedding surfaces as
`Except.error`. -/
def format_birthday (u : User) : Except String (Option String) :=
  if truthyOptInt u.birthday_month && truthyOptInt u.birthday_day then do
    let m := u.birthday_month.getD 0
    let d := u.birthday_day.getD 0
    let month_name ← pyListGet month_abbr m
    if truthyOptInt u.birthday_year then
      let y := u.birthday_year.getD 0
      pure (some (month_name ++ " " ++ toString d ++ " " ++ toString y))
    else
      pure (some (month_name ++ " " ++ toString d))
  else
    pure u.birthday

/-- A user whose stored birthday parsed from "2024-03-15". -/
def marchUser : User :=
  { blankUser with
    birthday := some "2024-03-15"
    birthday_year := some 2024
    birthday_month := some 3
    birthday_day := some 15 }

/-- A user whose stored birthday parsed from "13-40" (month 13, day 40):
storable because `parse_birthday` performs no range validation. -/
def monthThirteenUser : User :=
  { blankUser with
    birthday := some "13-40"
    birthday_month := some 13
    birthday_day := some 40 }

example : format_birthday marchUser = .ok (some "Mar 15 2024") := rfl
example : format_birthday monthThirteenUser = .error "IndexError" := rfl
example : format_birthday blankUser = .ok none := rfl

/-- Request body of `POST /data_peek/{user_id}` (class `DataPeekUpdate`);
pydantic `Optional` fields default to `None`. -/
structure DataPeekUpdate where
  first_name : Option String := none
  last_name : Option String := none
  phone_number : Option String := none
  birthday : Option String := none
  address : Option String := none
deriving DecidableEq, Repr

/-- Request body of `POST /note_peek/{user_id}` (class `NotePeekUpdate`). -/
structure NotePeekUpdate where
  note_name : Option String := none
  note_body : Option String := none
deriving DecidableEq, Repr

/-- Request body of `POST /commands/{user_id}` (class `CommandUpdate`). -/
structure CommandUpdate where
  command : Option String := none
deriving DecidableEq, Repr

/-- Request body of `POST /push/register` (class `PushRegisterRequest`);
the `preferences` dict is modelled as an association list with first-match
lookup (Python dict keys are unique). -/
structure PushRegisterRequest where
  user_id : String
  device_token : String
  preferences : Option (List (String × Bool)) := none
deriving DecidableEq, Repr

/-- Setting the four birthday columns to `NULL`, as the empty-birthday
branch of `update_data_peek` does. -/
def clear_birthday_fields (u : User) : User :=
  { u with birthday := none, birthday_year := none
           birthday_month := none, birthday_day := none }

/-- The `for field in ["first_name", "last_name", "phone_number",
"address"]` loop of `update_data_peek` (src/main.py lines 502-505): each
of the four simple fields is copied onto the record only when it is not
`None`. -/
def apply_simple_fields (u1 : User) (p : DataPeekUpdate) : User :=
  let u2 := match p.first_name with | some v => { u1 with first_name := some v } | none => u1
  let u3 := match p.last_name with | some v => { u2 with last_name := some v } | none => u2
  let u4 := match p.phone_number with | some v => { u3 with phone_number := some v } | none => u3
  match p.address with | some v => { u4 with address := some v } | none => u4

/-- Embedding of `update_data_peek` (src/main.py lines 481-511): a
`birthday` string that strips to empty clears the four birthday columns;
otherwise it is parsed (an `InvalidFormat` failure aborts the whole
update); then the simple-field loop runs. On success the endpoint
responds `{"status": "updated"}`. -/
def update_data_peek (u : User) (p : DataPeekUpdate) : Except String User := do
  let u1 ←
    match p.birthday with
    | none => pure u
    | some b =>
      if pyStrip b = "" then
        pure (clear_birthday_fields u)
      else
        match parse_birthday b with
        | .error e => Except.error e
        | .ok (y, m, d) =>
          pure { u with birthday := some b, birthday_year := y
                        birthday_month := some m, birthday_day := some d }
  pure (apply_simple_fields u1 p)

/-- A data_peek payload carrying only a birthday string. -/
def birthday_only (s : String) : DataPeekUpdate :=
  { birthday := some s }

example : update_data_peek blankUser (birthday_only "2024-03-15") = .ok marchUser := rfl
example : update_data_peek marchUser (birthday_only "") = .ok blankUser := rfl
example : update_data_peek blankUser (birthday_only "null") =
    .error "Invalid birthday format" := rfl

/-- Embedding of `update_commands` (src/main.py lines 698-711): the stored
`command` column is unconditionally overwritten with `payload.command`,
even when the payload field is `None`. -/
def update_commands (u : User) (p : CommandUpdate) : User × String :=
  ({ u with command := p.command }, "updated")

/-- Embedding of `push_register` (src/main.py lines 430-461): the stripped
device token must be non-empty (else HTTP 400); the single stored token is
overwritten and each per-channel flag is set from the `preferences` dict,
defaulting to `true` when the key is absent. -/
def push_register (u : User) (p : PushRegisterRequest) : Except String User :=
  let token := pyStrip p.device_token
  if token = "" then .error "device_token required"
  else
    let prefs := p.preferences.getD []
    .ok { u with
      apns_device_token := some token
      push_note_name_enabled := ((prefs.lookup "note_name").getD true)
      push_note_body_enabled := ((prefs.lookup "note_body").getD true)
      push_screenshot_enabled := ((prefs.lookup "screenshot").getD true) }

/-- The APNs alert payload built inside `send_apns_push` (src/main.py
lines 125-130): `alert={"title": "Sensus", "body": body}`, with the
notification type carried only in the custom payload. -/
structure ApnsPayload where
  title : String
  body : String
  sound : String
  badge : Nat
  custom_type : String
deriving DecidableEq, Repr

/-- The payload `send_apns_push` constructs for a given notification type
and body text. -/
def mkApnsPayload (notif_type body : String) : ApnsPayload :=
  { title := "Sensus", body := body, sound := "default"
    badge := 0, custom_type := notif_type }

/-- Embedding of `send_apns_push` (src/main.py lines 101-136): when APNs
is not configured the function returns without sending; otherwise the
whole client construction and send sits inside `try/except Exception:
return`, so the outcome of the injected `transport` capability is
discarded and the function always returns normally. -/
def send_apns_push (configured : Bool)
    (transport : String → ApnsPayload → Except String Unit)
    (device_token notif_type body : String) : Except String Unit :=
  if !configured then .ok ()
  else
    match transport device_token (mkApnsPayload notif_type body) with
    | .ok _ => .ok ()
    | .error _ => .ok ()

/-- One invocation of `send_apns_push` recorded with its arguments
(device token, notification type, body text). -/
structure PushCall where
  device_token : String
  notif_type : String
  body : String
deriving DecidableEq, Repr

/-- Result of `update_note_peek`: the persisted record, the list of
`send_apns_push` invocations made after the commit (in program order),
and the response status string. -/
structure NoteUpdateResult where
  user : User
  calls : List PushCall
  status : String
deriving DecidableEq, Repr

/-- Embedding of `update_note_peek` (src/main.py lines 547-587): each
payload field present (not `None`) is written and compared against the
old column value (`name_changed = (payload.note_name != old_name)`); the
record is committed; then, when the stored device token is truthy, a
`note_name` push (body = stripped new name) is sent if the name changed,
that channel is enabled and the stripped name is non-empty, followed by a
`note_body` push (body = `"{name} body updated"`) under the analogous
condition for the body change. The endpoint always responds
`{"status": "updated"}`. -/
def update_note_peek (u : User) (p : NotePeekUpdate) : NoteUpdateResult :=
  let old_name := u.note_name
  let old_body := u.note_body
  let u1 := match p.note_name with
    | some v => { u with note_name := some v }
    | none => u
  let name_changed := match p.note_name with
    | some v => some v != old_name
    | none => false
  let u2 := match p.note_body with
    | some v => { u1 with note_body := some v }
    | none => u1
  let body_changed := match p.note_body with
    | some v => some v != old_body
    | none => false
  let token := u2.apns_device_token
  let new_name := pyStrip (u2.note_name.getD "")
  let calls :=
    if truthyOptStr token then
      (if name_changed && u2.push_note_name_enabled && (new_name != "") then
        [⟨token.getD "", "note_name", new_name⟩] else []) ++
      (if body_changed && u2.push_note_body_enabled && (new_name != "") then
        [⟨token.getD "", "note_body", new_name ++ " body updated"⟩] else [])
    else []
  ⟨u2, calls, "updated"⟩

/-- The note_peek endpoint as the caller sees it: perform the update, then
make each recorded `send_apns_push` call through the given transport, and
respond with the persisted record and status string. -/
def update_note_peek_and_send (configured : Bool)
    (transport : String → ApnsPayload → Except String Unit)
    (u : User) (p : NotePeekUpdate) : Except String (User × String) := do
  let r := update_note_peek u p
  r.calls.forM (fun c => send_apns_push configured transport c.device_token c.notif_type c.body)
  pure (r.user, r.status)

/-- A user holding note "A", a registered device token and default
(enabled) channel flags. -/
def noteUserA : User :=
  { blankUser with note_name := some "A", apns_device_token := some "tok1" }

example : (update_note_peek noteUserA { note_name := some "B" }).calls =
    [⟨"tok1", "note_name", "B"⟩] := rfl
example : (update_note_peek noteUserA { note_name := some "A" }).calls = [] := rfl
example : (update_note_peek noteUserA { note_body := some "hello" }).calls =
    [⟨"tok1", "note_body", "A body updated"⟩] := rfl

/-- The structured-value round trip of §8 of the spec, realised through the
code's own data flow: store birthday `s` on a fresh record via
`update_data_peek` (which both parses `s` and keeps the raw string), render
it with `format_birthday`, and parse the rendering again. A `None`
rendering fed back to `parse_birthday` raises inside its `try` block and
becomes the same HTTP 400. -/
def parse_format_roundtrip (s : String) : Except String (Option Int × Int × Int) := do
  let u ← update_data_peek blankUser (birthday_only s)
  let f ← format_birthday u
  match f with
  | some t => parse_birthday t
  | none => .error "Invalid birthday format"

example : parse_format_roundtrip "2024-03-15" = .error "Invalid birthday format" := rfl
example : parse_format_roundtrip "0-5" = .ok (none, 0, 5) := rfl

/-! ## Claim theorems -/

/-- C1 counterexample: the claim says `parse("13-40")` fails with
`InvalidFormat` because the month 13 is out of range; in the code it
succeeds, returning `(None, 13, 40)`. -/
theorem C1_counterexample : parse_birthday "13-40" = .ok (none, 13, 40) := rfl

/-- C1 (amended): `parse_birthday` performs no range validation at all:
whatever the numeric values, an input that splits on `"-"` into two
`int`-parseable parts yields `(None, month, day)` and one that splits into
three such parts yields `(year, month, day)`; in particular
`parse("13-40")` succeeds. -/
theorem C1_theorem :
    (∀ (raw a b : String) (m d : Int), pySplitDash raw = [a, b] →
      pyInt a = some m → pyInt b = some d →
      parse_birthday raw = .ok (none, m, d)) ∧
    (∀ (raw a b c : String) (y m d : Int), pySplitDash raw = [a, b, c] →
      pyInt a = some y → pyInt b = some m → pyInt c = some d →
      parse_birthday raw = .ok (some y, m, d)) := by
  constructor
  · intro raw a b m d hs ha hb
    simp [parse_birthday, hs, ha, hb]
  · intro raw a b c y m d hs ha hb hc
    simp [parse_birthday, hs, ha, hb, hc]

/-- C1 witness: the general no-range-validation theorem applied to the
concrete calendar-impossible input "2024-02-30". -/
theorem C1_witness : parse_birthday "2024-02-30" = .ok (some 2024, 2, 30) :=
  C1_theorem.2 "2024-02-30" "2024" "02" "30" 2024 2 30 rfl rfl rfl rfl

/-- C2 counterexample: for the well-formed input "2024-03-15" the code
renders "Mar 15 2024", which `parse_birthday` cannot read, so
`parse(format(parse(s)))` is `InvalidFormat` while `parse(s)` succeeds —
the claimed round trip fails. -/
theorem C2_counterexample :
    parse_format_roundtrip "2024-03-15" = .error "Invalid birthday format" ∧
    parse_birthday "2024-03-15" = .ok (some 2024, 3, 15) :=
  ⟨rfl, rfl⟩

/-- C2 (amended): the round trip `parse(format(parse(s))) == parse(s)`
does not hold for ordinary well-formed inputs (the rendering is not
re-parseable); it holds only in the degenerate case where the parsed
month or day is 0, because `format_birthday` then falls back to the raw
stored string. -/
theorem C2_theorem (s : String) (y : Option Int) (m d : Int)
    (hp : parse_birthday s = .ok (y, m, d)) (hs : pyStrip s ≠ "")
    (hmd : m = 0 ∨ d = 0) :
    parse_format_roundtrip s = parse_birthday s := by
  have hfmt : ¬(truthyOptInt (some m) = true ∧ truthyOptInt (some d) = true) := by
    rcases hmd with h | h <;> simp [truthyOptInt, h]
  simp [parse_format_roundtrip, update_data_peek, apply_simple_fields,
        birthday_only, hs, hp, format_birthday, hfmt]

/-- C2 witness: the degenerate round trip at the concrete input "0-5"
(parsed day-of-month with month 0), where format falls back to the raw
string and the round trip closes. -/
theorem C2_witness : parse_format_roundtrip "0-5" = parse_birthday "0-5" :=
  C2_theorem "0-5" none 0 5 rfl (by decide) (Or.inl rfl)

/-- C3 counterexample: `format_birthday` is not total and does not map a
null value to the empty string: with stored month 13 (storable, since
parsing does no range check) it raises `IndexError`, and on an all-null
record it returns the null `birthday` column, which is not `""`. -/
theorem C3_counterexample :
    format_birthday monthThirteenUser = .error "IndexError" ∧
    format_birthday blankUser = .ok none ∧ (none : Option String) ≠ some "" :=
  ⟨rfl, rfl, by decide⟩

/-- C3 (amended): `format_birthday` renders
`"{MonthAbbrev} {Day} {Year}"` when month, day and year are all present
and non-zero (month within the 13-entry abbreviation table), and
`"{MonthAbbrev} {Day}"` when the year is absent; when month or
day is missing or zero it returns the raw stored `birthday` column
(so a null value renders as null, not as the empty string); and it fails
with `IndexError` when a stored month ≥ 13 is rendered. -/
theorem C3_theorem :
    (∀ (u : User) (m d y : Int), u.birthday_month = some m →
      u.birthday_day = some d → u.birthday_year = some y →
      1 ≤ m → m ≤ 12 → d ≠ 0 → y ≠ 0 →
      ∃ a, pyListGet month_abbr m = .ok a ∧
        format_birthday u = .ok (some (a ++ " " ++ toString d ++ " " ++ toString y))) ∧
    (∀ (u : User) (m d : Int), u.birthday_month = some m →
      u.birthday_day = some d → u.birthday_year = none →
      1 ≤ m → m ≤ 12 → d ≠ 0 →
      ∃ a, pyListGet month_abbr m = .ok a ∧
        format_birthday u = .ok (some (a ++ " " ++ toString d))) ∧
    (∀ u : User,
      (truthyOptInt u.birthday_month = false ∨ truthyOptInt u.birthday_day = false) →
      format_birthday u = .ok u.birthday) ∧
    (∀ (u : User) (m d : Int), u.birthday_month = some m →
      u.birthday_day = some d → 13 ≤ m → d ≠ 0 →
      format_birthday u = .error "IndexError") := by
  have hlen : month_abbr.length = 13 := rfl
  refine ⟨?_, ?_, ?_, ?_⟩
  · intro u m d y hm hd hy h1 h12 hd0 hy0
    have hm0 : m ≠ 0 := by omega
    have hidx : ¬(m < 0) := by omega
    have h0 : (0 : Int) ≤ m := by omega
    have hlt : m.toNat < month_abbr.length := by rw [hlen]; omega
    refine ⟨month_abbr.get ⟨m.toNat, hlt⟩, ?_, ?_⟩
    · simp [pyListGet, hidx, h0, hlt]
    · simp [format_birthday, hm, hd, hy, truthyOptInt, hm0, hd0, hy0,
            pyListGet, hidx, h0, hlt, Except.map]
  · intro u m d hm hd hy h1 h12 hd0
    have hm0 : m ≠ 0 := by omega
    have hidx : ¬(m < 0) := by omega
    have h0 : (0 : Int) ≤ m := by omega
    have hlt : m.toNat < month_abbr.length := by rw [hlen]; omega
    refine ⟨month_abbr.get ⟨m.toNat, hlt⟩, ?_, ?_⟩
    · simp [pyListGet, hidx, h0, hlt]
    · simp [format_birthday, hm, hd, hy, truthyOptInt, hm0, hd0,
            pyListGet, hidx, h0, hlt, Except.map]
  · intro u h
    have hc : ¬(truthyOptInt u.birthday_month = true ∧ truthyOptInt u.birthday_day = true) := by
      rcases h with h | h <;> simp [h]
    simp [format_birthday, hc, pure, Except.pure]
  · intro u m d hm hd h13 hd0
    have hm0 : m ≠ 0 := by omega
    have hidx : ¬(m < 0) := by omega
    have h0 : (0 : Int) ≤ m := by omega
    have hge : ¬(m.toNat < month_abbr.length) := by rw [hlen]; omega
    simp [format_birthday, hm, hd, truthyOptInt, hm0, hd0,
          pyListGet, hidx, h0, hge, Except.map, bind, Except.bind]

/-- C3 witness: the amended rendering theorem applied to the record
parsed from "2024-03-15". -/
theorem C3_witness :
    ∃ a, pyListGet month_abbr 3 = .ok a ∧
      format_birthday marchUser =
        .ok (some (a ++ " " ++ toString (15 : Int) ++ " " ++ toString (2024 : Int))) :=
  C3_theorem.1 marchUser 3 15 2024 rfl rfl rfl (by decide) (by decide)
    (by decide) (by decide)

/-- The user `noteUserA` with the note_name channel switched off. -/
def noteUserADisabled : User :=
  { noteUserA with push_note_name_enabled := false }

/-- C4 counterexample: patching note "A" to "B" on a user with a token
and the channel enabled makes exactly one `send_apns_push` call as
claimed, but the alert payload it builds carries the hard-coded title
"Sensus" (the type tag travels only in the custom payload), not the
claimed title "Note Updated". -/
theorem C4_counterexample :
    (update_note_peek noteUserA { note_name := some "B" }).calls =
      [⟨"tok1", "note_name", "B"⟩] ∧
    (mkApnsPayload "note_name" "B").title = "Sensus" ∧
    "Sensus" ≠ "Note Updated" :=
  ⟨rfl, rfl, by decide⟩

/-- C4 (amended): when a patch changes `note_name` to a different value
whose stripped form is non-empty, with a truthy stored device token:
if the note_name channel is enabled exactly one push is made, with
notification type "note_name", body the stripped new name, and alert
title "Sensus"; if the channel is disabled, no push is made. -/
theorem C4_theorem (u : User) (t old new : String)
    (ht : u.apns_device_token = some t) (ht2 : t ≠ "")
    (hold : u.note_name = some old) (hne : new ≠ old)
    (hnb : pyStrip new ≠ "") :
    (u.push_note_name_enabled = true →
      (update_note_peek u { note_name := some new }).calls =
        [⟨t, "note_name", pyStrip new⟩] ∧
      mkApnsPayload "note_name" (pyStrip new) =
        ⟨"Sensus", pyStrip new, "default", 0, "note_name"⟩) ∧
    (u.push_note_name_enabled = false →
      (update_note_peek u { note_name := some new }).calls = []) := by
  constructor
  · intro hen
    refine ⟨?_, rfl⟩
    simp [update_note_peek, ht, hold, truthyOptStr, ht2, hne, hnb, hen]
  · intro hen
    simp [update_note_peek, ht, hold, truthyOptStr, ht2, hne, hnb, hen]

/-- C4 witness: the amended theorem applied to the "A"-to-"B" patch, on
the registered user with the channel enabled and on the same user with
the channel disabled. -/
theorem C4_witness :
    (update_note_peek noteUserA { note_name := some "B" }).calls =
      [⟨"tok1", "note_name", pyStrip "B"⟩] ∧
    (update_note_peek noteUserADisabled { note_name := some "B" }).calls = [] :=
  ⟨((C4_theorem noteUserA "tok1" "A" "B" rfl (by decide) rfl (by decide)
      (by decide)).1 rfl).1,
   (C4_theorem noteUserADisabled "tok1" "A" "B" rfl (by decide) rfl (by decide)
      (by decide)).2 rfl⟩

/-- C5 (confirmed): patching `note_name` to the very value the record
already holds is not a change — `name_changed` compares the payload value
with the old column value — so no push call is made, for every record and
every value. -/
theorem C5_theorem (u : User) (v : String) :
    (update_note_peek { u with note_name := some v }
      { note_name := some v }).calls = [] := by
  simp [update_note_peek]

/-- `send_apns_push` returns normally whatever the transport does: the
not-configured path returns early and the configured path swallows every
transport outcome inside `try/except`. Shared helper for C6. -/
theorem send_apns_push_total (configured : Bool)
    (transport : String → ApnsPayload → Except String Unit)
    (tok ty b : String) :
    send_apns_push configured transport tok ty b = .ok () := by
  unfold send_apns_push
  cases configured
  · rfl
  · simp only [Bool.not_true, Bool.false_eq_true, if_false]
    cases transport tok (mkApnsPayload ty b) <;> rfl

/-- Folding `send_apns_push` over any list of recorded calls succeeds.
Shared helper for C6. -/
theorem forM_send_apns_push_total (configured : Bool)
    (transport : String → ApnsPayload → Except String Unit) :
    ∀ calls : List PushCall,
      calls.forM (fun c =>
        send_apns_push configured transport c.device_token c.notif_type c.body) =
      .ok ()
  | [] => rfl
  | c :: cs => by
    show (send_apns_push configured transport c.device_token c.notif_type c.body >>=
        fun _ => cs.forM (fun c =>
          send_apns_push configured transport c.device_token c.notif_type c.body)) =
      .ok ()
    rw [send_apns_push_total]
    exact forM_send_apns_push_total configured transport cs

/-- C6 (confirmed): every `send_apns_push` call returns normally whatever
the injected delivery capability does, and the note_peek update therefore
always responds success with the patched record, for every transport —
a delivery failure is invisible to the caller and the field update is
persisted. -/
theorem C6_theorem :
    (∀ (configured : Bool)
       (transport : String → ApnsPayload → Except String Unit)
       (tok ty b : String),
      send_apns_push configured transport tok ty b = .ok ()) ∧
    (∀ (configured : Bool)
       (transport : String → ApnsPayload → Except String Unit)
       (u : User) (p : NotePeekUpdate),
      update_note_peek_and_send configured transport u p =
        .ok ((update_note_peek u p).user, "updated")) ∧
    (∀ (u : User) (v : String),
      (update_note_peek u { note_name := some v }).user =
        { u with note_name := some v }) := by
  refine ⟨send_apns_push_total, ?_, ?_⟩
  · intro configured transport u p
    simp [update_note_peek_and_send, forM_send_apns_push_total,
          bind, Except.bind, pure, Except.pure, update_note_peek]
  · intro u v
    simp [update_note_peek]

/-- The user whose stored command is "x". -/
def commandUser : User := { blankUser with command := some "x" }

/-- The user whose stored first name is "Ann". -/
def namedUser : User := { blankUser with first_name := some "Ann" }

/-- A genuinely partial data_peek payload: only `last_name` present. -/
def partialPatch : DataPeekUpdate := { last_name := some "B" }

/-- `namedUser` after `partialPatch`: only the last name is written. -/
def patchedNamedUser : User := { namedUser with last_name := some "B" }

/-- The simple-field loop writes `first_name` exactly when the payload
carries it, keeping the old value otherwise. Shared helper for C7. -/
theorem apply_simple_fields_first_name (u : User) (p : DataPeekUpdate) :
    (apply_simple_fields u p).first_name = p.first_name.or u.first_name := by
  rcases p with ⟨fn, ln, pn, b, ad⟩
  cases fn <;> cases ln <;> cases pn <;> cases ad <;> rfl

/-- The simple-field loop writes `last_name` exactly when the payload
carries it. Shared helper for C7. -/
theorem apply_simple_fields_last_name (u : User) (p : DataPeekUpdate) :
    (apply_simple_fields u p).last_name = p.last_name.or u.last_name := by
  rcases p with ⟨fn, ln, pn, b, ad⟩
  cases fn <;> cases ln <;> cases pn <;> cases ad <;> rfl

/-- The simple-field loop writes `phone_number` exactly when the payload
carries it. Shared helper for C7. -/
theorem apply_simple_fields_phone_number (u : User) (p : DataPeekUpdate) :
    (apply_simple_fields u p).phone_number = p.phone_number.or u.phone_number := by
  rcases p with ⟨fn, ln, pn, b, ad⟩
  cases fn <;> cases ln <;> cases pn <;> cases ad <;> rfl

/-- The simple-field loop writes `address` exactly when the payload
carries it. Shared helper for C7. -/
theorem apply_simple_fields_address (u : User) (p : DataPeekUpdate) :
    (apply_simple_fields u p).address = p.address.or u.address := by
  rcases p with ⟨fn, ln, pn, b, ad⟩
  cases fn <;> cases ln <;> cases pn <;> cases ad <;> rfl

/-- The simple-field loop never touches the four birthday columns.
Shared helper for C7. -/
theorem apply_simple_fields_birthday_cols (u : User) (p : DataPeekUpdate) :
    (apply_simple_fields u p).birthday = u.birthday ∧
    (apply_simple_fields u p).birthday_year = u.birthday_year ∧
    (apply_simple_fields u p).birthday_month = u.birthday_month ∧
    (apply_simple_fields u p).birthday_day = u.birthday_day := by
  rcases p with ⟨fn, ln, pn, b, ad⟩
  cases fn <;> cases ln <;> cases pn <;> cases ad <;> exact ⟨rfl, rfl, rfl, rfl⟩

/-- A successful `update_data_peek` run is the simple-field loop applied
to the record the birthday branch produced, and that record keeps the
four simple fields (and, when the payload has no birthday, everything).
Shared helper for C7. -/
theorem update_data_peek_ok_shape (u u' : User) (p : DataPeekUpdate)
    (hok : update_data_peek u p = .ok u') :
    ∃ u1 : User, u1.first_name = u.first_name ∧
      u1.last_name = u.last_name ∧ u1.phone_number = u.phone_number ∧
      u1.address = u.address ∧ (p.birthday = none → u1 = u) ∧
      u' = apply_simple_fields u1 p := by
  rcases hb : p.birthday with _ | b
  · refine ⟨u, rfl, rfl, rfl, rfl, fun _ => rfl, ?_⟩
    simp [update_data_peek, hb, pure, Except.pure, bind, Except.bind] at hok
    exact hok.symm
  · by_cases hs : pyStrip b = ""
    · refine ⟨clear_birthday_fields u, rfl, rfl, rfl, rfl, by simp [hb], ?_⟩
      simp [update_data_peek, hb, hs, pure, Except.pure, bind, Except.bind] at hok
      exact hok.symm
    · rcases hp : parse_birthday b with e | ⟨y, m, d⟩
      · simp [update_data_peek, hb, hs, hp, bind, Except.bind] at hok
      · refine ⟨{ u with birthday := some b
                         birthday_year := y
                         birthday_month := some m
                         birthday_day := some d },
          rfl, rfl, rfl, rfl, by simp [hb], ?_⟩
        simp [update_data_peek, hb, hs, hp, pure, Except.pure,
              bind, Except.bind] at hok
        exact hok.symm

/-- C7 counterexample: two clauses of the claim fail. The command group
is not patched: with the command field absent from the payload, the
stored command "x" is cleared to null. And a field explicitly set to
JSON null does not clear: pydantic maps an explicit `"first_name": null`
to the same `None` as an absent field, so the stored first name "Ann"
survives the update untouched instead of being cleared. -/
theorem C7_counterexample :
    commandUser.command = some "x" ∧
    (update_commands commandUser {}).1.command = none ∧
    namedUser.first_name = some "Ann" ∧
    update_data_peek namedUser {} = .ok namedUser :=
  ⟨rfl, rfl, rfl, rfl⟩

/-- C7 (amended): for the data_peek and note_peek groups the patch is
per-field under arbitrary partial payloads: every successful update
stores each present field as given (including one explicitly set to the
empty string) and keeps the previous value of each absent field, and an
empty birthday string clears the four birthday columns; but a field
explicitly set to JSON null is indistinguishable from an absent one
(pydantic maps both to `None`) and is therefore left untouched, not
cleared; and the command group is overwritten unconditionally, so an
absent (or null) command clears the stored command. -/
theorem C7_theorem :
    (∀ (u u' : User) (p : DataPeekUpdate), update_data_peek u p = .ok u' →
      u'.first_name = p.first_name.or u.first_name ∧
      u'.last_name = p.last_name.or u.last_name ∧
      u'.phone_number = p.phone_number.or u.phone_number ∧
      u'.address = p.address.or u.address ∧
      (p.birthday = none → u'.birthday = u.birthday ∧
        u'.birthday_year = u.birthday_year ∧
        u'.birthday_month = u.birthday_month ∧
        u'.birthday_day = u.birthday_day)) ∧
    (∀ (u : User) (p : NotePeekUpdate),
      (update_note_peek u p).user.note_name = p.note_name.or u.note_name ∧
      (update_note_peek u p).user.note_body = p.note_body.or u.note_body) ∧
    (∀ (u : User) (p : DataPeekUpdate), p.birthday = some "" →
      ∃ u', update_data_peek u p = .ok u' ∧ u'.birthday = none ∧
        u'.birthday_year = none ∧ u'.birthday_month = none ∧
        u'.birthday_day = none) ∧
    (∀ (u : User) (p : CommandUpdate),
      (update_commands u p).1.command = p.command) := by
  refine ⟨?_, ?_, ?_, ?_⟩
  · intro u u' p hok
    rcases update_data_peek_ok_shape u u' p hok with ⟨u1, h1, h2, h3, h4, h5, rfl⟩
    refine ⟨?_, ?_, ?_, ?_, ?_⟩
    · rw [apply_simple_fields_first_name, h1]
    · rw [apply_simple_fields_last_name, h2]
    · rw [apply_simple_fields_phone_number, h3]
    · rw [apply_simple_fields_address, h4]
    · intro hb
      rcases apply_simple_fields_birthday_cols u1 p with ⟨b1, b2, b3, b4⟩
      rw [← h5 hb]
      exact ⟨b1, b2, b3, b4⟩
  · intro u p
    constructor
    · cases hn : p.note_name <;> cases hb : p.note_body <;>
        simp [update_note_peek, hn, hb, Option.or]
    · cases hn : p.note_name <;> cases hb : p.note_body <;>
        simp [update_note_peek, hn, hb, Option.or]
  · intro u p hb
    refine ⟨apply_simple_fields (clear_birthday_fields u) p, ?_, ?_⟩
    · have hstrip : pyStrip "" = "" := rfl
      simp [update_data_peek, hb, hstrip, pure, Except.pure, bind, Except.bind]
    · rcases apply_simple_fields_birthday_cols (clear_birthday_fields u) p with
        ⟨b1, b2, b3, b4⟩
      exact ⟨b1, b2, b3, b4⟩
  · intro u p
    rfl

/-- C7 witness: the per-field characterisation applied to the concrete
partial payload that sets only the last name on the user named "Ann":
the absent fields keep their values while the present one is written. -/
theorem C7_witness :
    patchedNamedUser.first_name = partialPatch.first_name.or namedUser.first_name ∧
    patchedNamedUser.last_name = partialPatch.last_name.or namedUser.last_name ∧
    patchedNamedUser.phone_number = partialPatch.phone_number.or namedUser.phone_number ∧
    patchedNamedUser.address = partialPatch.address.or namedUser.address ∧
    (partialPatch.birthday = none →
      patchedNamedUser.birthday = namedUser.birthday ∧
      patchedNamedUser.birthday_year = namedUser.birthday_year ∧
      patchedNamedUser.birthday_month = namedUser.birthday_month ∧
      patchedNamedUser.birthday_day = namedUser.birthday_day) :=
  C7_theorem.1 namedUser patchedNamedUser partialPatch rfl

/-- C8 counterexample: the literal token "null" is not special-cased: it
does not strip to the empty string, `parse_birthday` rejects it, and the
update fails with `InvalidFormat` instead of clearing the value. -/
theorem C8_counterexample :
    update_data_peek blankUser (birthday_only "null") =
      .error "Invalid birthday format" :=
  rfl

/-- C8 (amended): a birthday input that strips to the empty string is
accepted and clears the four stored birthday columns to null, but the
literal token "null" (in any letter case) is not accepted — it fails with
`InvalidFormat`. -/
theorem C8_theorem :
    (∀ (u : User) (s : String), pyStrip s = "" →
      update_data_peek u (birthday_only s) = .ok (clear_birthday_fields u)) ∧
    (∀ u : User, update_data_peek u (birthday_only "null") =
      .error "Invalid birthday format") ∧
    (∀ u : User, update_data_peek u (birthday_only "NULL") =
      .error "Invalid birthday format") := by
  refine ⟨?_, ?_, ?_⟩
  · intro u s hs
    simp [update_data_peek, apply_simple_fields, birthday_only, hs,
          pure, Except.pure, bind, Except.bind]
  · intro u
    rfl
  · intro u
    rfl

/-- C8 witness: the clearing branch of the amended theorem applied to the
empty input string on the record holding the parsed "2024-03-15". -/
theorem C8_witness :
    update_data_peek marchUser (birthday_only "") =
      .ok (clear_birthday_fields marchUser) :=
  C8_theorem.1 marchUser "" rfl

/-- The push-registration request carrying device token `t` (and no
preference dict). -/
def regReq (t : String) : PushRegisterRequest :=
  { user_id := "u", device_token := t }

/-- C9 counterexample: a user cannot hold two concurrent subscriptions —
the single `apns_device_token` column is overwritten by each
registration. Registering "t1" and then "t2" and patching the note name
yields exactly one push call, addressed to "t2": the delivery capability
is not called twice. -/
theorem C9_counterexample :
    (do
      let u1 ← push_register noteUserA (regReq "t1")
      let u2 ← push_register u1 (regReq "t2")
      pure (update_note_peek u2 { note_name := some "B" }).calls) =
    Except.ok [⟨"t2", "note_name", "B"⟩] :=
  rfl

/-- C9 (amended): each successful registration overwrites the single
stored device token with the stripped request token, and a note_name-only
patch makes at most one push call — delivery fan-out per user is bounded
by the one stored subscription. -/
theorem C9_theorem :
    (∀ (u u2 : User) (p : PushRegisterRequest), push_register u p = .ok u2 →
      u2.apns_device_token = some (pyStrip p.device_token)) ∧
    (∀ (u : User) (v : String),
      (update_note_peek u { note_name := some v }).calls.length ≤ 1) := by
  constructor
  · intro u u2 p hok
    by_cases h : pyStrip p.device_token = ""
    · simp [push_register, h] at hok
    · simp [push_register, h] at hok
      rw [← hok]
  · intro u v
    simp only [update_note_peek]
    split
    · split <;> split <;> simp_all
    · simp

/-- C9 witness: the token-overwrite theorem applied to a concrete
registration on a fresh record. -/
theorem C9_witness :
    ({ blankUser with apns_device_token := some "t1" } : User).apns_device_token =
      some (pyStrip "t1") :=
  C9_theorem.1 blankUser { blankUser with apns_device_token := some "t1" }
    (regReq "t1") rfl

/-- C10 (confirmed): a note_body push is gated on the post-update
note_name being non-empty after stripping — when the stripped name is
empty every push is suppressed — while the new note_body value itself is
never inspected: clearing the body to the empty string still makes
exactly one note_body push call, with body "{note_name} body updated"
built from the stripped current name, whenever the name is non-empty,
the token is present and the channel enabled. -/
theorem C10_theorem :
    (∀ (u : User) (p : NotePeekUpdate),
      pyStrip ((update_note_peek u p).user.note_name.getD "") = "" →
      (update_note_peek u p).calls = []) ∧
    (∀ (u : User) (t : String), u.apns_device_token = some t → t ≠ "" →
      u.push_note_body_enabled = true → u.note_body ≠ some "" →
      pyStrip (u.note_name.getD "") ≠ "" →
      (update_note_peek u { note_body := some "" }).calls =
        [⟨t, "note_body", pyStrip (u.note_name.getD "") ++ " body updated"⟩]) := by
  constructor
  · intro u p hname
    simp only [update_note_peek] at hname ⊢
    simp [hname]
  · intro u t ht ht2 hen hnb hname
    simp [update_note_peek, ht, truthyOptStr, ht2, hen, Ne.symm hnb, hname]

/-- C10 witness: clearing the body to "" on a user with note name "A", a
token and the channel enabled makes exactly the one claimed push call. -/
theorem C10_witness :
    (update_note_peek { noteUserA with note_body := some "b" }
      { note_body := some "" }).calls =
    [⟨"tok1", "note_body", pyStrip (({ noteUserA with note_body := some "b" } :
      User).note_name.getD "") ++ " body updated"⟩] :=
  C10_theorem.2 { noteUserA with note_body := some "b" } "tok1" rfl
    (by decide) rfl (by decide) (by decide)

end Sensus
